import Mathlib

/-!
# Verification of the classad expression-evaluation engine

Shallow embedding of `classad/_expression.py`: the expression node
hierarchy, the attribute scope-resolution algorithm, the operator table
and the arithmetic chain evaluator, together with theorems settling the
frozen claims about this code.

Python's dynamic values are modelled by the inductive family `PyVal`;
raised exceptions are modelled by `Except PyExc`; potentially
non-terminating recursion (Python has no termination guarantee here) is
modelled with an explicit fuel parameter, `Option.none` meaning the fuel
ran out.  External collaborators that are not part of the source file
(the `ClassAd` record type, the `Undefined`/`Error` primitives'
operator behaviour, the function registry) are modelled from the spec,
as marked by their doc comments.
-/

/-- The Python exception classes that the evaluator can raise or catch. -/
inductive PyExc where
  | typeError
  | arithmeticError
  | attributeError
  | notImplementedError
  | keyError
  | indexError
  deriving DecidableEq, Repr

/-- Semantic operations appearing as values of `operator_map`
(`operator.add`, …, `evaluate_is_operator`, `evaluate_isnt_operator`).
Two distinct surface tokens may map to the same operation. -/
inductive OpTag where
  | add | sub | mul | truediv
  | lt | le | ge | gt | eq | ne
  | band | bor
  | isOp | isntOp
  deriving DecidableEq, Repr

/-- The `_expression` payload of an `AttributeExpression`, as built by
`AttributeExpression.from_grammar`: a bare dotted name (relative form),
`[".", tail]` (absolute form), or `["super", name]` (super-qualified
form). -/
inductive AttrPayload where
  | rel (name : String)
  | abs (tail : String)
  | sup (name : String)
  deriving DecidableEq, Repr

mutual
/-- A dynamic Python value of the evaluator's universe: numbers, strings,
booleans, the `Undefined` and `Error` markers, `None`, the
`NotImplemented` singleton, ClassAd records, exact rationals standing in
for `float` results of true division, and expression nodes. -/
inductive PyVal where
  | int (n : Int)
  | rat (q : Rat)
  | str (s : String)
  | bool (b : Bool)
  | undefined
  | error
  | pnone
  | notImpl
  | classad (entries : AdEntries)
  | exprNode (e : ExprNode)

/-- The ordered name/value entries of a ClassAd record. -/
inductive AdEntries where
  | nil
  | cons (name : String) (v : PyVal) (rest : AdEntries)

/-- An expression node: `AttributeExpression`, `ArithmeticExpression`
(`_expression` is the raw token tuple), `FunctionExpression`,
`NamedExpression`, a plain `Expression`, or a `DotExpression`
(`_expression = [record, reference]`). -/
inductive ExprNode where
  | attr (p : AttrPayload)
  | arith (chain : ValList)
  | func (name : String) (args : ValList)
  | named (tok : String)
  | base (payload : PyVal)
  | dot (left : PyVal) (ref : PyVal)

/-- A list of dynamic values (token sequences, argument lists). -/
inductive ValList where
  | nil
  | cons (v : PyVal) (rest : ValList)
end

abbrev PRes (α : Type) := Except PyExc α

/-! ## String utilities (`key.split(".")`, `".".join(...)`) -/

/-- Python's `str.split(".")` on the character list: splits at every
`'.'`, keeping empty pieces, and yields `[""]` on the empty string. -/
def splitDotChars : List Char → List (List Char)
  | [] => [[]]
  | c :: rest =>
    if c = '.' then [] :: splitDotChars rest
    else
      match splitDotChars rest with
      | [] => [[c]]
      | g :: gs => (c :: g) :: gs

/-- `s.split(".")`. -/
def pySplitDot (s : String) : List String :=
  (splitDotChars s.data).map String.mk

/-- `".".join(l)`. -/
def pyJoinDot : List String → String
  | [] => ""
  | [s] => s
  | s :: rest => s ++ "." ++ pyJoinDot rest

/-- `scope_up(key)`: `".".join(key.split(".")[:-1])` — drop the last
dot-separated component. -/
def scope_up (key : String) : String :=
  pyJoinDot (pySplitDot key).dropLast

/-- `s.split(".")[-1]`: the last dot-separated component (`split` never
returns an empty list, so the default is unreachable). -/
def lastComponent (s : String) : String :=
  (pySplitDot s).getLastD ""

example : scope_up "a.b.c" = "a.b" := by decide
example : scope_up "a" = "" := by decide
example : scope_up "" = "" := by decide
example : lastComponent "x.y" = "y" := by decide

/-! ## The record context (`ClassAd`), modelled from the spec -/

/-- Modelled from the spec: name-keyed lookup in a ClassAd record
"returning a value or the Undefined marker, never raising for a missing
key" (the `ClassAd` mapping type lives outside this source file). -/
def adLookup : AdEntries → String → PyVal
  | .nil, _ => .undefined
  | .cons n v rest, key => if n = key then v else adLookup rest key

/-- Modelled from the spec: ClassAd "dotted-path indexing that can fail
with a type-mismatch condition when the path does not denote a nested
record".  The key is split on dots; every component but the last must
resolve to a nested record, else `TypeError`; the last component is a
plain lookup that yields `Undefined` when missing. -/
def adWalk : AdEntries → List String → PRes PyVal
  | entries, [last] => .ok (adLookup entries last)
  | entries, c :: rest =>
    match adLookup entries c with
    | .classad inner => adWalk inner rest
    | _ => .error .typeError
  | _, [] => .error .typeError

/-- `container[key]` for a string key: dotted-path indexing on a record,
`TypeError` on any non-record container. -/
def getIndex (v : PyVal) (key : String) : PRes PyVal :=
  match v with
  | .classad entries => adWalk entries (pySplitDot key)
  | _ => .error .typeError

/-- `len(v)`: defined for strings and records, `TypeError` elsewhere
(this is what makes `find_scope` fail on a `None` scope key). -/
def pyLen : PyVal → PRes Nat
  | .str s => .ok s.length
  | .classad entries => .ok (adLen entries)
  | _ => .error .typeError
where
  adLen : AdEntries → Nat
    | .nil => 0
    | .cons _ _ rest => adLen rest + 1

/-- `my[key]`: subscripting with a dynamic key; only string keys reach
the record's dotted-path lookup, anything else is a `TypeError`. -/
def pyIndex (v key : PyVal) : PRes PyVal :=
  match key with
  | .str s => getIndex v s
  | _ => .error .typeError

/-- `find_scope(current_key)` from `AttributeExpression.evaluate`:
`my[current_key]` when `len(current_key) > 0`, else `my` itself. -/
def findScope (key my : PyVal) : PRes PyVal :=
  match pyLen key with
  | .error e => .error e
  | .ok 0 => .ok my
  | .ok (_ + 1) => pyIndex my key

/-! ## Python `==` over this universe

`Expression.__eq__` (structural, returns `False` on a kind mismatch),
`AttributeExpression.__eq__` (raises `TypeError` on a kind mismatch),
`ArithmeticExpression.__eq__` (compares only `_expression[0]`, the
operator function of `_expression[1]`, and `_expression[2]`),
`FunctionExpression.__eq__`, and the reflected-operand protocol of
CPython for everything else. -/

mutual
/-- Modelled from the spec: pure structural equality of two records
(the external `ClassAd` mapping compares as a mapping). -/
def adBeq : AdEntries → AdEntries → Bool
  | .nil, .nil => true
  | .cons n v r, .cons n' v' r' => n = n' && valBeq v v' && adBeq r r'
  | _, _ => false

/-- Structural (identity-free) comparison of two dynamic values, used
for record equality; never raises. -/
def valBeq : PyVal → PyVal → Bool
  | .int m, .int n => m = n
  | .rat p, .rat q => p = q
  | .str s, .str t => s = t
  | .bool a, .bool b => a = b
  | .undefined, .undefined => true
  | .error, .error => true
  | .pnone, .pnone => true
  | .notImpl, .notImpl => true
  | .classad e, .classad e' => adBeq e e'
  | .exprNode a, .exprNode b => nodeBeq a b
  | _, _ => false

/-- Structural comparison of nodes (helper for `valBeq` only). -/
def nodeBeq : ExprNode → ExprNode → Bool
  | .attr p, .attr q => p = q
  | .arith c, .arith c' => vlBeq c c'
  | .func n a, .func n' a' => n = n' && vlBeq a a'
  | .named s, .named s' => s = s'
  | .base p, .base p' => valBeq p p'
  | .dot l r, .dot l' r' => valBeq l l' && valBeq r r'
  | _, _ => false

/-- Structural comparison of value lists (helper for `valBeq` only). -/
def vlBeq : ValList → ValList → Bool
  | .nil, .nil => true
  | .cons v r, .cons v' r' => valBeq v v' && vlBeq r r'
  | _, _ => false
end

/-- The ported `operator_map` of `ArithmeticExpression`, entry for
entry, including the `"=>"` spelling that appears in the source. -/
def operator_map : List (String × OpTag) :=
  [("+", .add), ("-", .sub), ("*", .mul), ("/", .truediv),
   ("<", .lt), ("<=", .le), ("=>", .ge), (">", .gt),
   ("==", .eq), ("!=", .ne),
   ("&&", .band), ("||", .bor),
   ("=!=", .isntOp), ("isnt", .isntOp),
   ("=?=", .isOp), ("is", .isOp)]

/-- `operator_map[tok]` as an optional lookup (`none` = `KeyError`). -/
def lookupOp (tok : String) : Option OpTag :=
  List.lookup tok operator_map

/-- Result of `Undefined`/`Error` marker operators, modelled from the
spec: markers are "data, flowing through evaluation like any other
value"; `Error` dominates `Undefined` (the primitives live outside this
source file). -/
def markerCombine (a b : PyVal) : PyVal :=
  match a, b with
  | .error, _ => .error
  | _, .error => .error
  | _, _ => .undefined

/-- Coerce a truth-test result inside node equality; a non-boolean
comparison outcome in that position is modelled as a `TypeError`. -/
def strictBool : PyVal → PRes Bool
  | .bool b => .ok b
  | _ => .error .typeError

mutual
/-- Python `a == b` (`operator.eq`) over this universe, with the
source's per-class `__eq__` methods and CPython's reflected-operand
fallback. -/
def pyEq : PyVal → PyVal → PRes PyVal
  | .exprNode (.attr p), .exprNode (.attr q) => .ok (.bool (decide (p = q)))
  | .exprNode (.attr _), _ => .error .typeError
  | .exprNode (.arith c), .exprNode (.arith c') => arithNodeEq c c'
  | .exprNode (.arith _), _ => .ok (.bool false)
  | .exprNode (.func n a), .exprNode (.func n' a') =>
    (match pyEqList a a' with
     | .error e => .error e
     | .ok false => .ok (.bool false)
     | .ok true => .ok (.bool (decide (n = n'))))
  | .exprNode (.func _ _), _ => .ok (.bool false)
  | .exprNode (.named s), .exprNode (.named s') => .ok (.bool (decide (s = s')))
  | .exprNode (.named _), _ => .ok (.bool false)
  | .exprNode (.base p), .exprNode (.base p') => pyEq p p'
  | .exprNode (.base _), _ => .ok (.bool false)
  | .exprNode (.dot l r), .exprNode (.dot l' r') =>
    (match pyEq l l' with
     | .error e => .error e
     | .ok v =>
       match strictBool v with
       | .error e => .error e
       | .ok false => .ok (.bool false)
       | .ok true =>
         match pyEq r r' with
         | .error e => .error e
         | .ok w =>
           match strictBool w with
           | .error e => .error e
           | .ok b => .ok (.bool b))
  | .exprNode (.dot _ _), _ => .ok (.bool false)
  | .undefined, b => .ok (markerCombine .undefined b)
  | .error, b => .ok (markerCombine .error b)
  | a, .undefined => .ok (markerCombine a .undefined)
  | a, .error => .ok (markerCombine a .error)
  | _, .exprNode (.attr _) => .error .typeError
  | _, .exprNode _ => .ok (.bool false)
  | .int m, .int n => .ok (.bool (decide (m = n)))
  | .int m, .bool b => .ok (.bool (decide (m = (if b then 1 else 0))))
  | .bool b, .int n => .ok (.bool (decide ((if b then (1 : Int) else 0) = n)))
  | .bool a, .bool b => .ok (.bool (decide (a = b)))
  | .int m, .rat q => .ok (.bool (decide ((m : Rat) = q)))
  | .rat q, .int n => .ok (.bool (decide (q = (n : Rat))))
  | .rat p, .rat q => .ok (.bool (decide (p = q)))
  | .str s, .str t => .ok (.bool (decide (s = t)))
  | .classad e, .classad e' => .ok (.bool (adBeq e e'))
  | .pnone, .pnone => .ok (.bool true)
  | .notImpl, .notImpl => .ok (.bool true)
  | _, _ => .ok (.bool false)

/-- `ArithmeticExpression.__eq__` body: the three comparisons of the
tuple `(chain[0] == chain'[0], map[chain[1]] == map[chain'[1]],
chain[2] == chain'[2])` are all computed (exceptions in any of them
propagate), then conjoined; shorter chains hit an `IndexError`. -/
def arithNodeEq : ValList → ValList → PRes PyVal
  | .cons x0 (.cons x1 (.cons x2 _)), .cons y0 (.cons y1 (.cons y2 _)) =>
    (match pyEq x0 y0 with
     | .error e => .error e
     | .ok r0 =>
       match opIdentity x1 y1 with
       | .error e => .error e
       | .ok r1 =>
         match pyEq x2 y2 with
         | .error e => .error e
         | .ok r2 =>
           match strictBool r0, strictBool r2 with
           | .ok b0, .ok b2 => .ok (.bool (b0 && r1 && b2))
           | .error e, _ => .error e
           | _, .error e => .error e)
  | _, _ => .error .indexError

/-- `self.operator_map[x] == self.operator_map[y]`: both operator tokens
must be present strings (`KeyError` otherwise); equality is identity of
the mapped functions, so distinct spellings of the same operation count
as equal. -/
def opIdentity : PyVal → PyVal → PRes Bool
  | .str t1, .str t2 =>
    (match lookupOp t1, lookupOp t2 with
     | some o1, some o2 => .ok (decide (o1 = o2))
     | _, _ => .error .keyError)
  | _, _ => .error .keyError

/-- Python `list == list` elementwise (for `FunctionExpression`
argument lists). -/
def pyEqList : ValList → ValList → PRes Bool
  | .nil, .nil => .ok true
  | .cons v r, .cons v' r' =>
    (match pyEq v v' with
     | .error e => .error e
     | .ok w =>
       match strictBool w with
       | .error e => .error e
       | .ok false => .ok false
       | .ok true => pyEqList r r')
  | _, _ => .ok false
end

/-! ## The remaining operators of `operator_map` -/

/-- Numeric view: Python treats `bool` as an integer in arithmetic. -/
def toRatVal : PyVal → Option Rat
  | .int n => some (n : Rat)
  | .bool b => some (if b then 1 else 0)
  | .rat q => some q
  | _ => none

/-- Integer view for int/bool operands. -/
def toIntVal : PyVal → Option Int
  | .int n => some n
  | .bool b => some (if b then 1 else 0)
  | _ => none

/-- `s * n` string repetition. -/
def strRepeat (s : String) : Int → String
  | .ofNat n => String.join (List.replicate n s)
  | .negSucc _ => ""

/-- Python `&` on integers (two's-complement bitwise and). -/
def intLand (a b : Int) : Int :=
  if 0 ≤ a then
    if 0 ≤ b then Int.ofNat (a.toNat &&& b.toNat)
    else Int.ofNat (a.toNat - (a.toNat &&& (-b - 1).toNat))
  else
    if 0 ≤ b then Int.ofNat (b.toNat - (b.toNat &&& (-a - 1).toNat))
    else -(Int.ofNat ((-a - 1).toNat ||| (-b - 1).toNat) + 1)

/-- Python `|` on integers (two's-complement bitwise or). -/
def intLor (a b : Int) : Int :=
  if 0 ≤ a then
    if 0 ≤ b then Int.ofNat (a.toNat ||| b.toNat)
    else -(Int.ofNat ((-b - 1).toNat - ((-b - 1).toNat &&& a.toNat)) + 1)
  else
    if 0 ≤ b then -(Int.ofNat ((-a - 1).toNat - ((-a - 1).toNat &&& b.toNat)) + 1)
    else -(Int.ofNat ((-a - 1).toNat &&& (-b - 1).toNat) + 1)

/-- `operator.add`: `AttributeExpression.__add__` raises
`ArithmeticError`; marker operands absorb (modelled from the spec,
`Error` dominating); other nodes have no `__add__`/`__radd__`, giving
`TypeError`; numbers add, strings concatenate. -/
def pyAdd : PyVal → PyVal → PRes PyVal
  | .exprNode (.attr _), _ => .error .arithmeticError
  | .undefined, b => .ok (markerCombine .undefined b)
  | .error, b => .ok (markerCombine .error b)
  | a, .undefined => .ok (markerCombine a .undefined)
  | a, .error => .ok (markerCombine a .error)
  | .exprNode _, _ => .error .typeError
  | _, .exprNode _ => .error .typeError
  | .str s, .str t => .ok (.str (s ++ t))
  | a, b =>
    match toIntVal a, toIntVal b with
    | some x, some y => .ok (.int (x + y))
    | _, _ =>
      match toRatVal a, toRatVal b with
      | some x, some y => .ok (.rat (x + y))
      | _, _ => .error .typeError

/-- `operator.sub` (same shape as `pyAdd`, no string case). -/
def pySub : PyVal → PyVal → PRes PyVal
  | .exprNode (.attr _), _ => .error .arithmeticError
  | .undefined, b => .ok (markerCombine .undefined b)
  | .error, b => .ok (markerCombine .error b)
  | a, .undefined => .ok (markerCombine a .undefined)
  | a, .error => .ok (markerCombine a .error)
  | .exprNode _, _ => .error .typeError
  | _, .exprNode _ => .error .typeError
  | a, b =>
    match toIntVal a, toIntVal b with
    | some x, some y => .ok (.int (x - y))
    | _, _ =>
      match toRatVal a, toRatVal b with
      | some x, some y => .ok (.rat (x - y))
      | _, _ => .error .typeError

/-- `operator.mul`, including Python's string repetition. -/
def pyMul : PyVal → PyVal → PRes PyVal
  | .exprNode (.attr _), _ => .error .arithmeticError
  | .undefined, b => .ok (markerCombine .undefined b)
  | .error, b => .ok (markerCombine .error b)
  | a, .undefined => .ok (markerCombine a .undefined)
  | a, .error => .ok (markerCombine a .error)
  | .exprNode _, _ => .error .typeError
  | _, .exprNode _ => .error .typeError
  | .str s, b =>
    (match toIntVal b with
     | some n => .ok (.str (strRepeat s n))
     | none => .error .typeError)
  | a, .str s =>
    (match toIntVal a with
     | some n => .ok (.str (strRepeat s n))
     | none => .error .typeError)
  | a, b =>
    match toIntVal a, toIntVal b with
    | some x, some y => .ok (.int (x * y))
    | _, _ =>
      match toRatVal a, toRatVal b with
      | some x, some y => .ok (.rat (x * y))
      | _, _ => .error .typeError

/-- `operator.truediv`: always a float (exact rational here); division
by zero is a `ZeroDivisionError`, an `ArithmeticError` subclass. -/
def pyDiv : PyVal → PyVal → PRes PyVal
  | .exprNode (.attr _), _ => .error .arithmeticError
  | .undefined, b => .ok (markerCombine .undefined b)
  | .error, b => .ok (markerCombine .error b)
  | a, .undefined => .ok (markerCombine a .undefined)
  | a, .error => .ok (markerCombine a .error)
  | .exprNode _, _ => .error .typeError
  | _, .exprNode _ => .error .typeError
  | a, b =>
    match toRatVal a, toRatVal b with
    | some x, some y => if y = 0 then .error .arithmeticError else .ok (.rat (x / y))
    | _, _ => .error .typeError

/-- The four order comparisons share one skeleton:
`AttributeExpression` comparison methods raise `TypeError` (directly on
the left, via the reflected method on the right); markers absorb
(modelled from the spec); numbers and strings compare, everything else
is unorderable. -/
def pyCompare (intCmp : Rat → Rat → Bool) (strCmp : String → String → Bool) :
    PyVal → PyVal → PRes PyVal
  | .exprNode (.attr _), _ => .error .typeError
  | .undefined, b => .ok (markerCombine .undefined b)
  | .error, b => .ok (markerCombine .error b)
  | a, .undefined => .ok (markerCombine a .undefined)
  | a, .error => .ok (markerCombine a .error)
  | _, .exprNode (.attr _) => .error .typeError
  | .str s, .str t => .ok (.bool (strCmp s t))
  | a, b =>
    match toRatVal a, toRatVal b with
    | some x, some y => .ok (.bool (intCmp x y))
    | _, _ => .error .typeError

/-- `operator.ne`: `AttributeExpression.__ne__` raises `TypeError`; the
default `__ne__` of the other classes negates `__eq__`. -/
def pyNe : PyVal → PyVal → PRes PyVal
  | .exprNode (.attr _), _ => .error .typeError
  | a, b =>
    match pyEq a b with
    | .error e => .error e
    | .ok (.bool b') => .ok (.bool (!b'))
    | .ok .undefined => .ok .undefined
    | .ok .error => .ok .error
    | .ok _ => .error .typeError

/-- `operator.and_` (bitwise `&`): `AttributeExpression.__and__` raises
`ArithmeticError`; markers absorb (modelled from the spec); booleans
conjoin, integers combine bitwise. -/
def pyAnd : PyVal → PyVal → PRes PyVal
  | .exprNode (.attr _), _ => .error .arithmeticError
  | .undefined, b => .ok (markerCombine .undefined b)
  | .error, b => .ok (markerCombine .error b)
  | a, .undefined => .ok (markerCombine a .undefined)
  | a, .error => .ok (markerCombine a .error)
  | .bool a, .bool b => .ok (.bool (a && b))
  | a, b =>
    match toIntVal a, toIntVal b with
    | some x, some y => .ok (.int (intLand x y))
    | _, _ => .error .typeError

/-- `operator.or_` (bitwise `|`), mirror image of `pyAnd`. -/
def pyOr : PyVal → PyVal → PRes PyVal
  | .exprNode (.attr _), _ => .error .arithmeticError
  | .undefined, b => .ok (markerCombine .undefined b)
  | .error, b => .ok (markerCombine .error b)
  | a, .undefined => .ok (markerCombine a .undefined)
  | a, .error => .ok (markerCombine a .error)
  | .bool a, .bool b => .ok (.bool (a || b))
  | a, b =>
    match toIntVal a, toIntVal b with
    | some x, some y => .ok (.int (intLor x y))
    | _, _ => .error .typeError

/-- `evaluate_is_operator(a, b) = a.__is__(b)`:
`AttributeExpression.__is__` raises `TypeError`; the markers implement a
type-aware identity test (modelled from the spec, the primitives being
external); plain values have no `__is__`, hence `AttributeError`. -/
def pyIs : PyVal → PyVal → PRes PyVal
  | .exprNode (.attr _), _ => .error .typeError
  | .undefined, b => .ok (.bool (match b with | .undefined => true | _ => false))
  | .error, b => .ok (.bool (match b with | .error => true | _ => false))
  | _, _ => .error .attributeError

/-- `evaluate_isnt_operator(a, b) = a.__isnt__(b)`. -/
def pyIsnt : PyVal → PyVal → PRes PyVal
  | .exprNode (.attr _), _ => .error .typeError
  | .undefined, b => .ok (.bool (match b with | .undefined => false | _ => true))
  | .error, b => .ok (.bool (match b with | .error => false | _ => true))
  | _, _ => .error .attributeError

/-- Apply the semantic operation behind an operator token. -/
def applyOp : OpTag → PyVal → PyVal → PRes PyVal
  | .add => pyAdd
  | .sub => pySub
  | .mul => pyMul
  | .truediv => pyDiv
  | .lt => pyCompare (· < ·) (fun s t => decide (s < t))
  | .le => pyCompare (· ≤ ·) (fun s t => decide (¬ t < s))
  | .ge => pyCompare (· ≥ ·) (fun s t => decide (¬ s < t))
  | .gt => pyCompare (· > ·) (fun s t => decide (t < s))
  | .eq => pyEq
  | .ne => pyNe
  | .band => pyAnd
  | .bor => pyOr
  | .isOp => pyIs
  | .isntOp => pyIsnt

/-- `ArithmeticExpression._calculate(first, second, operand)`:
`self.operator_map[operand](first, second)`, a missing token being a
`KeyError`, and `ArithmeticError`/`AttributeError`/`TypeError` at
application being converted into `NotImplementedError`. -/
def calculate (first second operand : PyVal) : PRes PyVal :=
  match operand with
  | .str tok =>
    (match lookupOp tok with
     | none => .error .keyError
     | some op =>
       match applyOp op first second with
       | .ok v => .ok v
       | .error .arithmeticError => .error .notImplementedError
       | .error .attributeError => .error .notImplementedError
       | .error .typeError => .error .notImplementedError
       | .error e => .error e)
  | _ => .error .keyError

/-- `tokens[-1]` of `t0 :: rest`. -/
def vlLast : ValList → PyVal → PyVal
  | .nil, d => d
  | .cons v r, _ => vlLast r v

/-- `ArithmeticExpression.from_grammar(tokens)`: eagerly try
`_calculate(tokens[0], tokens[-1], tokens[1])`; on
`NotImplementedError` fall back to a node holding the raw token tuple
(`len(tokens) > 1` always holds when that point is reached, since a
single-token sequence raises `IndexError` at `tokens[1]` first). -/
def from_grammar : ValList → PRes PyVal
  | .nil => .error .indexError
  | .cons t0 rest =>
    match rest with
    | .nil => .error .indexError
    | .cons t1 _ =>
      match calculate t0 (vlLast rest t0) t1 with
      | .ok v => .ok v
      | .error .notImplementedError => .ok (.exprNode (.arith (.cons t0 rest)))
      | .error e => .error e

/-! ## `AttributeExpression.evaluate` — the scope-resolution algorithm -/

/-- The form dispatch at the top of `AttributeExpression.evaluate`:
absolute form rebinds `key` to `scope_up` of the reference's own dotted
tail and looks up its last component; super-qualified form rebinds
`key` to `scope_up(key)` (raising `AttributeError` when the incoming
key is not a string, e.g. the `None` default); relative form keeps the
caller's key and looks up the raw name. -/
def attrBranch : AttrPayload → PyVal → PRes (PyVal × String)
  | .abs tail, _ => .ok (.str (scope_up tail), lastComponent tail)
  | .sup name, key =>
    (match key with
     | .str s => .ok (.str (scope_up s), name)
     | _ => .error .attributeError)
  | .rel name, key => .ok (key, name)

/-- Outcome of the scope-walk loop: a final result, a found value that
is itself an `AttributeExpression` (to be re-evaluated at the scope key
at which it was found), or exhausted fuel. -/
inductive LoopOut where
  | out (r : PRes PyVal)
  | alias (q : AttrPayload) (key : PyVal)
  | fuelOut

/-- The `while isinstance(value, Undefined)` loop of
`AttributeExpression.evaluate`: look the name up in the current
context; on `Undefined`, stop with `Undefined` if the scope path is
already empty, else move the path one level up and re-resolve the
context (failures here are NOT caught — only the initial `find_scope`
call sits inside the `try`). -/
def attrLoop : Nat → PyVal → PyVal → String → PyVal → LoopOut
  | 0 => fun _ _ _ _ => .fuelOut
  | n + 1 => fun key context expr my =>
    match pyIndex context (.str expr) with
    | .error e => .out (.error e)
    | .ok .undefined =>
      (match pyLen key with
       | .error e => .out (.error e)
       | .ok 0 => .out (.ok .undefined)
       | .ok (_ + 1) =>
         match key with
         | .str s =>
           (match findScope (.str (scope_up s)) my with
            | .error e => .out (.error e)
            | .ok context' => attrLoop n (.str (scope_up s)) context' expr my)
         | _ => .out (.error .attributeError))
    | .ok v =>
      match v with
      | .exprNode (.attr q) => .alias q key
      | v' => .out (.ok v')

/-- `AttributeExpression.evaluate(key, my, target)`: dispatch on the
reference form, resolve the starting scope (`TypeError` here is caught
and becomes the `Error` marker), run the scope walk, and chase an
attribute-reference alias by re-evaluating it at the key where it was
found.  `Option.none` models non-termination (fuel exhausted). -/
def evalAttr : Nat → AttrPayload → PyVal → PyVal → PyVal → Option (PRes PyVal)
  | 0 => fun _ _ _ _ => none
  | n + 1 => fun p key my target =>
    match attrBranch p key with
    | .error e => some (.error e)
    | .ok (key', expr) =>
      match findScope key' my with
      | .error .typeError => some (.ok .error)
      | .error e => some (.error e)
      | .ok context =>
        match attrLoop (n + 1) key' context expr my with
        | .fuelOut => none
        | .out r => some r
        | .alias q k => evalAttr n q k my target

/-! ## `DotExpression.evaluate` -/

/-- The `while isinstance(to_check, AttributeExpression)` loop of
`DotExpression.evaluate` with its visited-set cycle guard.  Only a
relative (string) payload is hashable; an absolute or super payload is
a list, and testing a list for set membership raises `TypeError`. -/
def dotLoop : Nat → PyVal → List String → PyVal → Option (PRes PyVal)
  | 0 => fun _ _ _ => none
  | n + 1 => fun left checked toCheck =>
    match toCheck with
    | .exprNode (.attr p) =>
      (match p with
       | .rel s =>
         if s ∈ checked then some (.ok .undefined)
         else
           match pyIndex left (.str s) with
           | .error e => some (.error e)
           | .ok v => dotLoop n left (s :: checked) v
       | _ => some (.error .typeError))
    | v => some (.ok v)

/-- `DotExpression.evaluate`: walk the reference chain hop by hop
through `_expression[0]`, guarded by the `checked` set. -/
def dotEval (n : Nat) (left ref : PyVal) : Option (PRes PyVal) :=
  dotLoop n left [] ref

/-! ## `ArithmeticExpression.evaluate`, `FunctionExpression.evaluate`,
and the node dispatch -/

/-- `element.evaluate(...)` for a chain element or argument.
Expression nodes go through the supplied evaluator; primitive values
and records evaluate to themselves (modelled from the spec — the
primitive wrapper classes are external); `None`/`NotImplemented` have
no `evaluate` method, an `AttributeError`. -/
def elemEval (ev : ExprNode → PyVal → PyVal → PyVal → Option (PRes PyVal))
    (v key my target : PyVal) : Option (PRes PyVal) :=
  match v with
  | .exprNode e => ev e key my target
  | .pnone => some (.error .attributeError)
  | .notImpl => some (.error .attributeError)
  | w => some (.ok w)

/-- The `for position in range(0, len(self._expression) - 1, 2)` fold
of `ArithmeticExpression.evaluate`: evaluate the next operand, apply
`_calculate` to the running result — whose `NotImplementedError` is NOT
caught here and escapes the evaluator.  A trailing operator without an
operand is the `IndexError` of `self._expression[position + 2]`. -/
def arithFold (ev : ExprNode → PyVal → PyVal → PyVal → Option (PRes PyVal)) :
    PyVal → ValList → PyVal → PyVal → PyVal → Option (PRes PyVal)
  | acc, .nil, _, _, _ => some (.ok acc)
  | _, .cons _ .nil, _, _, _ => some (.error .indexError)
  | acc, .cons op (.cons e2 rest), key, my, target =>
    match elemEval ev e2 key my target with
    | none => none
    | some (.error ex) => some (.error ex)
    | some (.ok v2) =>
      match calculate acc v2 op with
      | .error ex => some (.error ex)
      | .ok acc' => arithFold ev acc' rest key my target

/-- `ArithmeticExpression.evaluate`: evaluate `_expression[0]`, then
fold the (operator, operand) pairs left to right. -/
def evalArithChain (ev : ExprNode → PyVal → PyVal → PyVal → Option (PRes PyVal))
    (chain : ValList) (key my target : PyVal) : Option (PRes PyVal) :=
  match chain with
  | .nil => some (.error .indexError)
  | .cons e0 rest =>
    match elemEval ev e0 key my target with
    | none => none
    | some (.error ex) => some (.error ex)
    | some (.ok v0) => arithFold ev v0 rest key my target

/-- The argument loop of `FunctionExpression.evaluate`: every
`Expression` argument is evaluated as `element.evaluate(my, target)` —
positionally, so the caller's `my` lands in the `key` slot, the
caller's `target` in the `my` slot, and `target` defaults to `None`;
non-`Expression` arguments are appended unchanged. -/
def funcArgsGo (ev : ExprNode → PyVal → PyVal → PyVal → Option (PRes PyVal)) :
    ValList → List PyVal → PyVal → PyVal → Option (PRes (List PyVal))
  | .nil, acc, _, _ => some (.ok acc.reverse)
  | .cons a rest, acc, my, target =>
    match a with
    | .exprNode e =>
      (match ev e my target .pnone with
       | none => none
       | some (.error ex) => some (.error ex)
       | some (.ok v) => funcArgsGo ev rest (v :: acc) my target)
    | v => funcArgsGo ev rest (v :: acc) my target

/-- `FunctionExpression.evaluate`: build the evaluated argument list,
then dispatch `getattr(_functions, name)(*args)` through the abstract
registry `reg` (the function library is external). -/
def evalFuncCall (reg : String → List PyVal → PRes PyVal)
    (ev : ExprNode → PyVal → PyVal → PyVal → Option (PRes PyVal))
    (name : String) (args : ValList) (_key my target : PyVal) :
    Option (PRes PyVal) :=
  match funcArgsGo ev args [] my target with
  | none => none
  | some (.error ex) => some (.error ex)
  | some (.ok l) => some (reg name l)

/-- The uniform `evaluate(key, my, target)` dispatch over node kinds.
`NamedExpression` and the plain base `Expression` return the
`NotImplemented` value (not an exception). -/
def evalNode (reg : String → List PyVal → PRes PyVal) :
    Nat → ExprNode → PyVal → PyVal → PyVal → Option (PRes PyVal)
  | 0 => fun _ _ _ _ => none
  | n + 1 => fun e key my target =>
    match e with
    | .attr p => evalAttr (n + 1) p key my target
    | .arith chain => evalArithChain (evalNode reg n) chain key my target
    | .func name args => evalFuncCall reg (evalNode reg n) name args key my target
    | .dot l r => dotEval (n + 1) l r
    | .named _ => some (.ok .notImpl)
    | .base _ => some (.ok .notImpl)

/-! ## Spec-side definitions used for comparison -/

/-- Modelled from the spec: the evaluation-time "strict left-to-right
fold over the chain — evaluate the first operand, then repeatedly apply
the next operator to the running result and the next operand" — for
chains of concrete operands (which evaluate to themselves). -/
def specFold : PyVal → ValList → PRes PyVal
  | acc, .nil => .ok acc
  | _, .cons _ .nil => .error .indexError
  | acc, .cons op (.cons e rest) =>
    match calculate acc e op with
    | .error ex => .error ex
    | .ok acc' => specFold acc' rest

/-- The spec-side fold over a whole token chain. -/
def specChainFold : ValList → PRes PyVal
  | .nil => .error .indexError
  | .cons e0 rest => specFold e0 rest

/-- Direct (non-accumulating) description of the argument evaluation of
`FunctionExpression.evaluate`: each `Expression` argument is evaluated
with the caller's `my` in the scope-key slot, the caller's `target` in
the `my` slot and `None` as target; other arguments pass through. -/
def funcArgsSpec (ev : ExprNode → PyVal → PyVal → PyVal → Option (PRes PyVal)) :
    ValList → PyVal → PyVal → Option (PRes (List PyVal))
  | .nil, _, _ => some (.ok [])
  | .cons a rest, my, target =>
    match (match a with
           | .exprNode e => ev e my target .pnone
           | v => some (.ok v)) with
    | none => none
    | some (.error ex) => some (.error ex)
    | some (.ok v) =>
      match funcArgsSpec ev rest my target with
      | none => none
      | some (.error ex) => some (.error ex)
      | some (.ok l) => some (.ok (v :: l))

/-- The chain of scope keys visited by the walk: the key itself, then
`scope_up` of it, and so on; the walk ends at the empty key. -/
def scopeChainF : Nat → String → List String
  | 0, _ => []
  | n + 1, k => if k = "" then [""] else k :: scopeChainF n (scope_up k)

example : scopeChainF 3 "c" = ["c", ""] := by decide
example : scopeChainF 5 "a.b" = ["a.b", "a", ""] := by decide

/-! ## Concrete inputs used by the claim theorems -/

/-- `{ a: 1, nested: { a: 2, b: 0 } }` — the inner record shadows `a`. -/
def adShadow : PyVal :=
  .classad (.cons "a" (.int 1) (.cons "nested"
    (.classad (.cons "a" (.int 2) (.cons "b" (.int 0) .nil))) .nil))

/-- `{ A: ref B, B: ref A }` — a two-hop attribute alias cycle. -/
def cycAd : PyVal :=
  .classad (.cons "A" (.exprNode (.attr (.rel "B")))
    (.cons "B" (.exprNode (.attr (.rel "A"))) .nil))

/-! ## C1 — absolute-reference starting scope -/

/-- C1 (counterexample): the claim reads the absolute form as starting
one level up from the caller-supplied scope key — which is exactly what
the super-qualified form does.  On `{ a: 1, nested: { a: 2, b: … } }`
with current attribute path `nested.b`, the code resolves the absolute
reference `.a` to the root's `a = 1`, while starting one level up from
the caller's key (the super form) finds the shadowing `nested.a = 2`:
the two starting scopes are observably different. -/
theorem C1_counterexample :
    evalAttr 3 (.abs "a") (.str "nested.b") adShadow .pnone = some (.ok (.int 1)) ∧
    evalAttr 3 (.sup "a") (.str "nested.b") adShadow .pnone = some (.ok (.int 2)) :=
  ⟨rfl, rfl⟩

/-- C1 (amended): for an absolute-form reference the caller-supplied
scope key is ignored entirely; resolution starts one level up from the
reference's *own* dotted tail and looks up the tail's last component —
i.e. the absolute form behaves exactly like a super-qualified reference
to the last component evaluated at a scope key equal to the tail
itself, regardless of how deeply nested the referencing attribute is. -/
theorem C1_absolute_scope :
    (∀ (n : Nat) (tail : String) (k₁ k₂ my target : PyVal),
       evalAttr n (.abs tail) k₁ my target = evalAttr n (.abs tail) k₂ my target) ∧
    (∀ (n : Nat) (tail : String) (my target : PyVal),
       evalAttr n (.abs tail) .pnone my target
         = evalAttr n (.sup (lastComponent tail)) (.str tail) my target) := by
  constructor
  · intro n tail k₁ k₂ my target
    cases n <;> rfl
  · intro n tail my target
    cases n <;> rfl

/-! ## C2 — cycle guard for alias chains -/

/-- Direct evaluation of an attribute reference never terminates: the
result is "fuel exhausted" at every fuel. -/
def divergesAttr (p : AttrPayload) (key my : PyVal) : Prop :=
  ∀ n, evalAttr n p key my .pnone = none

/-- C2 (counterexample): on the record `{ A: ref B, B: ref A }`,
directly evaluating the reference to `A` does *not* terminate with
`Undefined`: `AttributeExpression.evaluate` chases the alias found at
line 194–195 with no visited set, so the two-hop cycle recurses
forever (out of fuel at every fuel bound). -/
theorem C2_counterexample : divergesAttr (.rel "A") (.str "") cycAd := by
  have h : ∀ n, evalAttr n (.rel "A") (.str "") cycAd .pnone = none ∧
      evalAttr n (.rel "B") (.str "") cycAd .pnone = none := by
    intro n
    induction n with
    | zero => exact ⟨rfl, rfl⟩
    | succ m ih =>
      refine ⟨?_, ?_⟩
      · calc evalAttr (m + 1) (.rel "A") (.str "") cycAd .pnone
            = evalAttr m (.rel "B") (.str "") cycAd .pnone := rfl
          _ = none := ih.2
      · calc evalAttr (m + 1) (.rel "B") (.str "") cycAd .pnone
            = evalAttr m (.rel "A") (.str "") cycAd .pnone := rfl
          _ = none := ih.1
  exact fun n => (h n).1

/-- C2 (amended): the visited-reference cycle guard lives in
`DotExpression.evaluate` only: resolving the chain `record.A` through a
Dot node over a record with the two-hop alias cycle `A ↔ B` terminates
and yields the Undefined marker; direct `AttributeExpression`
evaluation of such a cycle is not guarded (see the counterexample). -/
theorem C2_dot_cycle_guard (a b : String) (hab : a ≠ b)
    (ha : pySplitDot a = [a]) (hb : pySplitDot b = [b]) :
    dotEval 3
      (.classad (.cons a (.exprNode (.attr (.rel b)))
        (.cons b (.exprNode (.attr (.rel a))) .nil)))
      (.exprNode (.attr (.rel a))) = some (.ok .undefined) := by
  have hba : b ≠ a := hab.symm
  simp [dotEval, dotLoop, pyIndex, getIndex, ha, hb, adWalk, adLookup, hab, hba,
    List.mem_cons]

/-- C2 (witness): the guard theorem at the concrete cycle `A ↔ B`. -/
theorem C2_dot_cycle_guard_witness :
    dotEval 3
      (.classad (.cons "A" (.exprNode (.attr (.rel "B")))
        (.cons "B" (.exprNode (.attr (.rel "A"))) .nil)))
      (.exprNode (.attr (.rel "A"))) = some (.ok .undefined) :=
  C2_dot_cycle_guard "A" "B" (by decide) (by decide) (by decide)

/-! ## C3 — scope exhaustion yields Undefined -/

/-- A string of length zero is the empty string. -/
theorem string_length_eq_zero {s : String} (h : s.length = 0) : s = "" := by
  cases s with
  | mk data =>
    cases data with
    | nil => rfl
    | cons c cs => simp [String.length] at h

/-- If the walk's scope chain reaches the empty key within the fuel,
and every scope along it resolves to a context in which the name looks
up to the Undefined marker, then the scope-walk loop ends with the
Undefined marker. -/
theorem attrLoop_exhaust (my : PyVal) (name : String) :
    ∀ (f : Nat) (k : String) (ctx : PyVal),
      "" ∈ scopeChainF f k →
      (∀ p ∈ scopeChainF f k, ∃ c, findScope (.str p) my = .ok c ∧
          getIndex c name = .ok .undefined) →
      findScope (.str k) my = .ok ctx →
      attrLoop f (.str k) ctx name my = .out (.ok .undefined) := by
  intro f
  induction f with
  | zero =>
    intro k ctx hmem _ _
    simp [scopeChainF] at hmem
  | succ m ih =>
    intro k ctx hmem hall hfs
    by_cases hk : k = ""
    · subst hk
      obtain ⟨c, hc, hidx⟩ := hall "" (by simp [scopeChainF])
      have h0 : findScope (.str "") my = .ok my := rfl
      rw [h0] at hfs hc
      injection hfs with hfs'
      injection hc with hc'
      subst hfs'
      subst hc'
      simp [attrLoop, pyIndex, hidx, pyLen]
    · have hchain : scopeChainF (m + 1) k = k :: scopeChainF m (scope_up k) := by
        simp [scopeChainF, hk]
      rw [hchain] at hmem hall
      have hmem' : "" ∈ scopeChainF m (scope_up k) := by
        rcases List.mem_cons.mp hmem with h | h
        · exact absurd h.symm hk
        · exact h
      obtain ⟨c, hc, hidx⟩ := hall k (List.mem_cons_self _ _)
      rw [hfs] at hc
      injection hc with hc'
      subst hc'
      have hupmem : scope_up k ∈ scopeChainF m (scope_up k) := by
        cases m with
        | zero => simp [scopeChainF] at hmem'
        | succ j =>
          by_cases hu : scope_up k = ""
          · simp [scopeChainF, hu]
          · simp [scopeChainF, hu]
      obtain ⟨c', hc', hidx'⟩ := hall (scope_up k) (List.mem_cons_of_mem _ hupmem)
      have hklen : ∃ j, String.length k = j + 1 := by
        cases hlen : String.length k with
        | zero => exact absurd (string_length_eq_zero hlen) hk
        | succ j => exact ⟨j, rfl⟩
      obtain ⟨j, hj⟩ := hklen
      have hrest := ih (scope_up k) c' hmem'
        (fun p hp => hall p (List.mem_cons_of_mem _ hp)) hc'
      simp [attrLoop, pyIndex, hidx, pyLen, hj, hc', hrest]

/-- C3: a relative reference to a name that every scope along the
current scope chain (the key, its ancestors, down to the empty path)
resolves to the Undefined marker evaluates to the Undefined marker — a
value, not a raised failure: the walk climbs one level at a time and,
at the empty path with the lookup still Undefined, returns Undefined. -/
theorem C3_scope_exhaustion (n : Nat) (key name : String) (my target : PyVal)
    (hmem : "" ∈ scopeChainF (n + 1) key)
    (hall : ∀ p ∈ scopeChainF (n + 1) key, ∃ c, findScope (.str p) my = .ok c ∧
        getIndex c name = .ok .undefined) :
    evalAttr (n + 1) (.rel name) (.str key) my target = some (.ok .undefined) := by
  have hkmem : key ∈ scopeChainF (n + 1) key := by
    by_cases hk : key = "" <;> simp [scopeChainF, hk]
  obtain ⟨c, hc, _⟩ := hall key hkmem
  have hloop := attrLoop_exhaust my name (n + 1) key c hmem hall hc
  simp [evalAttr, attrBranch, hc, hloop]

/-- `{ c: { x: 1 } }`. -/
def adNested : PyVal :=
  .classad (.cons "c" (.classad (.cons "x" (.int 1) .nil)) .nil)

/-- C3 (witness): the name `m` is absent from `{ c: { x: 1 } }` and its
nested scope `c`; a relative reference to `m` evaluated at scope key
`c` yields the Undefined marker. -/
theorem C3_scope_exhaustion_witness :
    evalAttr 3 (.rel "m") (.str "c") adNested .pnone = some (.ok .undefined) :=
  C3_scope_exhaustion 2 "c" "m" adNested .pnone (by decide)
    (fun p hp => by
      have h : scopeChainF 3 "c" = ["c", ""] := by decide
      rw [h] at hp
      rcases List.mem_cons.mp hp with h1 | h2
      · subst h1
        exact ⟨.classad (.cons "x" (.int 1) .nil), rfl, rfl⟩
      · rcases List.mem_cons.mp h2 with h3 | h4
        · subst h3
          exact ⟨adNested, rfl, rfl⟩
        · simp at h4)

/-! ## C4 — lazy fallback on unresolved-reference operands -/

/-- C4 (counterexample): applying `==` to a chain whose two elements
are both unresolved attribute-reference nodes does *not* yield a lazy
symbolic node: `AttributeExpression.__eq__` on a same-kind operand
returns a boolean, so construction constant-folds the chain to `True`. -/
theorem C4_counterexample :
    from_grammar (.cons (.exprNode (.attr (.rel "a")))
      (.cons (.str "==") (.cons (.exprNode (.attr (.rel "a"))) .nil)))
      = .ok (.bool true) := rfl

/-- `{ a: <lazy arithmetic node> }`: the attribute `a` resolves to a
still-symbolic node. -/
def adSymbolic : PyVal :=
  .classad (.cons "a" (.exprNode (.arith (.cons (.int 1) .nil))) .nil)

/-- The chain `a + a` of two attribute references. -/
def chainRefPlusRef : ValList :=
  .cons (.exprNode (.attr (.rel "a")))
    (.cons (.str "+") (.cons (.exprNode (.attr (.rel "a"))) .nil))

/-- C4 (amended): at construction time, applying `+`, `<`, `is` or `&&`
to a chain whose first element is an attribute-reference node yields
the lazy symbolic node holding the raw token tuple, for *any* second
operand (`==` between two reference nodes instead constant-folds to a
structural-equality boolean — see the counterexample).  At evaluation
time there is no such fallback: when the chain's references resolve to
still-symbolic nodes the operator failure is converted to
`NotImplementedError` by `_calculate` and escapes the evaluator. -/
theorem C4_lazy_fallback :
    (∀ (p : AttrPayload) (v : PyVal) (tok : String),
       tok ∈ (["+", "<", "is", "&&"] : List String) →
       from_grammar (.cons (.exprNode (.attr p)) (.cons (.str tok) (.cons v .nil)))
         = .ok (.exprNode (.arith
             (.cons (.exprNode (.attr p)) (.cons (.str tok) (.cons v .nil)))))) ∧
    (∀ (reg : String → List PyVal → PRes PyVal) (target : PyVal),
       evalNode reg 5 (.arith chainRefPlusRef) (.str "") adSymbolic target
         = some (.error .notImplementedError)) := by
  constructor
  · intro p v tok htok
    simp only [List.mem_cons, List.not_mem_nil, or_false] at htok
    rcases htok with h | h | h | h <;> subst h <;>
      cases v with
      | exprNode e => cases e <;> rfl
      | _ => rfl
  · intro reg target
    rfl

/-- C4 (witness): the construction-time fallback at `x + 1`. -/
theorem C4_lazy_fallback_witness :
    from_grammar (.cons (.exprNode (.attr (.rel "x")))
      (.cons (.str "+") (.cons (.int 1) .nil)))
      = .ok (.exprNode (.arith (.cons (.exprNode (.attr (.rel "x")))
          (.cons (.str "+") (.cons (.int 1) .nil))))) :=
  C4_lazy_fallback.1 (.rel "x") (.int 1) "+" (by decide)

/-! ## C5 — construction folding versus the evaluation-time fold -/

/-- The token chain `1 - 2 - 3`. -/
def chainOneTwoThree : ValList :=
  .cons (.int 1) (.cons (.str "-")
    (.cons (.int 2) (.cons (.str "-") (.cons (.int 3) .nil))))

/-- C5: on the chain `1 - 2 - 3`, construction-time constant folding
applies the first operator to `tokens[0]` and `tokens[-1]`, dropping
the middle operand: it returns `1 - 3 = -2`, while the evaluation-time
strict left-to-right fold — both as modelled from the spec's words and
as implemented by `ArithmeticExpression.evaluate` — yields
`(1 - 2) - 3 = -4`.  The two disagree, contradicting the code's own
evaluator. -/
theorem C5_folding_bug :
    from_grammar chainOneTwoThree = .ok (.int (-2)) ∧
    specChainFold chainOneTwoThree = .ok (.int (-4)) ∧
    (∀ (reg : String → List PyVal → PRes PyVal) (key my target : PyVal),
       evalNode reg 5 (.arith chainOneTwoThree) key my target
         = some (.ok (.int (-4)))) :=
  ⟨rfl, rfl, fun _ _ _ _ => rfl⟩

/-! ## C6 — record-shape mismatch becomes the Error marker -/

/-- C6: when resolving the starting scope fails with a type mismatch
(the scope path does not denote a nested record), evaluation returns
the Error marker — a value, caught inside the evaluator, never raised —
for each of the three reference forms. -/
theorem C6_shape_mismatch :
    (∀ (n : Nat) (name : String) (key my target : PyVal),
       findScope key my = .error .typeError →
       evalAttr (n + 1) (.rel name) key my target = some (.ok .error)) ∧
    (∀ (n : Nat) (tail : String) (key my target : PyVal),
       findScope (.str (scope_up tail)) my = .error .typeError →
       evalAttr (n + 1) (.abs tail) key my target = some (.ok .error)) ∧
    (∀ (n : Nat) (name s : String) (my target : PyVal),
       findScope (.str (scope_up s)) my = .error .typeError →
       evalAttr (n + 1) (.sup name) (.str s) my target = some (.ok .error)) := by
  refine ⟨?_, ?_, ?_⟩
  · intro n name key my target h
    simp [evalAttr, attrBranch, h]
  · intro n tail key my target h
    simp [evalAttr, attrBranch, h]
  · intro n name s my target h
    simp [evalAttr, attrBranch, h]

/-- `{ a: 1 }` — the path `a.b` indexes through the non-record `1`. -/
def adFlat : PyVal := .classad (.cons "a" (.int 1) .nil)

/-- C6 (witness): with `my = \x7b a: 1 \x7d` and scope key `a.b`, the dotted
path runs through a non-record; evaluation returns the Error marker. -/
theorem C6_shape_mismatch_witness :
    evalAttr 1 (.rel "x") (.str "a.b") adFlat .pnone = some (.ok .error) :=
  C6_shape_mismatch.1 0 "x" (.str "a.b") adFlat .pnone rfl

/-! ## C7 — scope-up at the top level -/

/-- C7 (counterexample): a super-qualified reference evaluated at the
already-top-level (empty) scope path does not produce the Error
marker: `scope_up("")` silently returns `""` again, so the lookup
proceeds at the top-level record and finds `a = 1`. -/
theorem C7_counterexample :
    evalAttr 2 (.sup "a") (.str "") adFlat .pnone = some (.ok (.int 1)) := rfl

/-- C7 (amended): "one level up" drops the last dot-separated component
of the scope path, but dropping the last component of an already-empty
path yields the empty path again — no error condition arises, and a
super-qualified reference at the top level resolves exactly like a
relative reference at the top level (evaluation never crashes and never
produces the Error marker on this account). -/
theorem C7_scope_up_top :
    scope_up "" = "" ∧
    (∀ (n : Nat) (name : String) (my target : PyVal),
       evalAttr n (.sup name) (.str "") my target
         = evalAttr n (.rel name) (.str "") my target) := by
  refine ⟨rfl, ?_⟩
  intro n name my target
  cases n <;> rfl

/-! ## C8 — structural equality of nodes -/

/-- C8 (counterexample): comparing an attribute-reference node with a
node of a different kind does not return false — it raises `TypeError`
(`AttributeExpression.__eq__` raises on any kind mismatch). -/
theorem C8_counterexample :
    pyEq (.exprNode (.attr (.rel "a"))) (.exprNode (.arith .nil))
      = .error .typeError := rfl

/-- C8 (amended): node equality is structural within a kind, but it is
not total and not symmetric across kinds: equality of two
attribute-reference nodes is structural payload equality, an
attribute-reference node on the left raises `TypeError` against any
other kind, while an arithmetic node on the left compares as `False`
against a different kind (and its same-kind comparison inspects only
the first operand, the first operator's function, and the second
operand, equating distinct spellings of the same operator). -/
theorem C8_structural_equality :
    (∀ p q : AttrPayload,
       pyEq (.exprNode (.attr p)) (.exprNode (.attr q))
         = .ok (.bool (decide (p = q)))) ∧
    (∀ (p : AttrPayload) (c : ValList),
       pyEq (.exprNode (.attr p)) (.exprNode (.arith c)) = .error .typeError) ∧
    (∀ (c : ValList) (p : AttrPayload),
       pyEq (.exprNode (.arith c)) (.exprNode (.attr p)) = .ok (.bool false)) ∧
    pyEq (.exprNode (.arith (.cons (.int 1)
            (.cons (.str "is") (.cons (.int 2) .nil)))))
        (.exprNode (.arith (.cons (.int 1)
            (.cons (.str "=?=") (.cons (.int 2) (.cons (.str "junk") .nil))))))
      = .ok (.bool true) := by
  refine ⟨fun p q => rfl, fun p c => rfl, fun c p => rfl, rfl⟩

/-! ## C9 — the operator table -/

/-- C9: the operator table maps `+ - * /`, `< <= >`, `== !=`,
`&& ||` and the four identity spellings to their operations, but the
relational token `>=` is *absent*: the source spells it `"=>"`
(mapped to greater-or-equal), so looking up `">="` is a `KeyError`. -/
theorem C9_operator_table :
    lookupOp ">=" = none ∧
    lookupOp "=>" = some OpTag.ge ∧
    lookupOp "+" = some OpTag.add ∧
    lookupOp "-" = some OpTag.sub ∧
    lookupOp "*" = some OpTag.mul ∧
    lookupOp "/" = some OpTag.truediv ∧
    lookupOp "<" = some OpTag.lt ∧
    lookupOp "<=" = some OpTag.le ∧
    lookupOp ">" = some OpTag.gt ∧
    lookupOp "==" = some OpTag.eq ∧
    lookupOp "!=" = some OpTag.ne ∧
    lookupOp "&&" = some OpTag.band ∧
    lookupOp "||" = some OpTag.bor ∧
    lookupOp "is" = some OpTag.isOp ∧
    lookupOp "=?=" = some OpTag.isOp ∧
    lookupOp "isnt" = some OpTag.isntOp ∧
    lookupOp "=!=" = some OpTag.isntOp := by
  decide

/-! ## C10 — function-argument evaluation and its bindings -/

/-- The accumulating argument loop agrees with the direct description:
the loop's result is the spec-side list appended after the (reversed)
accumulator. -/
theorem funcArgsGo_eq_spec
    (ev : ExprNode → PyVal → PyVal → PyVal → Option (PRes PyVal)) :
    ∀ (args : ValList) (acc : List PyVal) (my target : PyVal),
      funcArgsGo ev args acc my target =
        match funcArgsSpec ev args my target with
        | none => none
        | some (.error ex) => some (.error ex)
        | some (.ok l) => some (.ok (acc.reverse ++ l))
  | .nil, acc, my, target => by
    simp [funcArgsGo, funcArgsSpec]
  | .cons a rest, acc, my, target => by
    have ih : ∀ acc' : List PyVal,
        funcArgsGo ev rest acc' my target =
          match funcArgsSpec ev rest my target with
          | none => none
          | some (.error ex) => some (.error ex)
          | some (.ok l) => some (.ok (acc'.reverse ++ l)) :=
      fun acc' => funcArgsGo_eq_spec ev rest acc' my target
    cases a
    case exprNode e =>
      cases hev : ev e my target .pnone with
      | none => simp [funcArgsGo, funcArgsSpec, hev]
      | some r =>
        cases r with
        | error ex => simp [funcArgsGo, funcArgsSpec, hev]
        | ok v =>
          simp only [funcArgsGo, funcArgsSpec, hev, ih]
          cases funcArgsSpec ev rest my target with
          | none => rfl
          | some r' =>
            cases r' with
            | error ex => rfl
            | ok l => simp
    all_goals
      simp only [funcArgsGo, funcArgsSpec, ih]
    all_goals
      cases funcArgsSpec ev rest my target with
      | none => rfl
      | some r' =>
        cases r' with
        | error ex => rfl
        | ok l => simp

/-- C10: `FunctionExpression.evaluate` never reads the caller's scope
key, and its result is dispatch of the registry function on the
argument list in which every `Expression` argument has been evaluated
with the caller's `my` record bound to the scope-key parameter, the
caller's `target` bound to the `my` parameter, and `None` as the new
target (the caller's key is dropped, its target never forwarded), while
every non-`Expression` argument passes through unchanged. -/
theorem C10_function_argument_binding :
    (∀ (reg : String → List PyVal → PRes PyVal)
       (ev : ExprNode → PyVal → PyVal → PyVal → Option (PRes PyVal))
       (name : String) (args : ValList) (k₁ k₂ my target : PyVal),
       evalFuncCall reg ev name args k₁ my target
         = evalFuncCall reg ev name args k₂ my target) ∧
    (∀ (reg : String → List PyVal → PRes PyVal)
       (ev : ExprNode → PyVal → PyVal → PyVal → Option (PRes PyVal))
       (name : String) (args : ValList) (key my target : PyVal),
       evalFuncCall reg ev name args key my target =
         match funcArgsSpec ev args my target with
         | none => none
         | some (.error ex) => some (.error ex)
         | some (.ok l) => some (reg name l)) := by
  constructor
  · intro reg ev name args k₁ k₂ my target
    rfl
  · intro reg ev name args key my target
    simp only [evalFuncCall]
    rw [funcArgsGo_eq_spec ev args [] my target]
    cases funcArgsSpec ev args my target with
    | none => rfl
    | some r =>
      cases r with
      | error ex => rfl
      | ok l => simp
